import Mathlib

/-!
Verification of the vector-xlite replicated coordination layer.

This file gives a shallow embedding, in Lean 4, of the Go code of the
vector-xlite distributed cluster: the leader-redirect server interceptor
(`distributed/cluster/pkg/server/interceptor.go`), the cluster RPC server
(`distributed/cluster/pkg/server/server.go` and the handler callbacks wired
in `distributed/cluster/cmd/cli/main.go`), the Raft finite-state machine and
snapshot codec (package `consensus`), and the client-side redirect
interceptor (package `client`). Pure control flow is translated function by
function; external effects (gRPC transport, the hashicorp/raft library, the
backend vector store) appear as explicit parameters or as recorded call
lists, and Go's `error` values are modelled as `Option String` /
`Except String`.

Machine integers: the only place where integer width matters is the 4-byte
big-endian frame length, where Go truncates with `uint32(len(data))`; the
embedding models this with `% 2 ^ 32` on `Nat`.
-/

namespace VectorXLite

/-! ## Raft library surface (hashicorp/raft), as consumed by the code -/

/-- Raft node state, mirroring `raft.RaftState`
(`Follower`, `Candidate`, `Leader`, `Shutdown`). -/
inductive RaftState where
  | follower
  | candidate
  | leader
  | shutdown
deriving DecidableEq, Repr

/-- Server suffrage, mirroring `raft.ServerSuffrage`. -/
inductive Suffrage where
  | voter
  | nonvoter
  | staging
deriving DecidableEq, Repr

/-- One record of the Raft configuration, mirroring `raft.Server`
(`ID`, `Address`, `Suffrage`). -/
structure RaftServer where
  id : String
  address : String
  suffrage : Suffrage
deriving DecidableEq, Repr

/-- The view of the local Raft node that the server code reads through the
`ClusterNode` interface: `State()`, `Leader()` and the committed
configuration (`GetConfiguration().Configuration().Servers`). -/
structure ClusterNodeView where
  state : RaftState
  leaderAddr : String
  servers : List RaftServer
deriving DecidableEq, Repr

/-- gRPC status codes used by the cluster server and client
(`google.golang.org/grpc/codes`). -/
inductive StatusCode where
  | ok
  | unavailable
  | internal
  | failedPrecondition
deriving DecidableEq, Repr

/-! ## Address derivation (`interceptor.go`, `convertRaftToClusterAddr`) -/

/-- Index of the last occurrence of a character in a character list;
mirrors Go `strings.LastIndex(raftAddr, ":")` (returning `none` for Go's
`-1`). -/
def lastIndexOf (c : Char) : List Char → Option Nat
  | [] => none
  | x :: rest =>
    match lastIndexOf c rest with
    | some i => some (i + 1)
    | none => if x = c then some 0 else none

/-- Embedding of `convertRaftToClusterAddr` (interceptor.go lines 84-104):
split the address at the last colon; the port must be nonempty and end in
the character 1, which is replaced by 2. -/
def convertRaftToClusterAddr (raftAddr : String) : Except String String :=
  match lastIndexOf ':' raftAddr.data with
  | none => .error ("invalid address format: " ++ raftAddr)
  | some lastColon =>
    let host := raftAddr.data.take lastColon
    let port := raftAddr.data.drop (lastColon + 1)
    match port.reverse with
    | [] => .error ("raft address must end with 1: " ++ raftAddr)
    | lastc :: revInit =>
      if lastc = '1' then
        .ok (String.mk (host ++ [':'] ++ (revInit.reverse ++ ['2'])))
      else
        .error ("raft address must end with 1: " ++ raftAddr)

/-! ## Request classification (`interceptor.go`, `isWriteOperation`) -/

/-- The literal key set of the `writeOperations` map in `isWriteOperation`
(interceptor.go lines 108-114). -/
def writeOperations : List String :=
  ["/vectorxlite.cluster.ClusterService/CreateCollection",
   "/vectorxlite.cluster.ClusterService/Insert",
   "/vectorxlite.cluster.ClusterService/Delete",
   "/vectorxlite.cluster.ClusterService/JoinCluster",
   "/vectorxlite.cluster.ClusterService/LeaveCluster"]

/-- Embedding of `isWriteOperation`: a Go map-literal lookup with `false`
default, i.e. membership in the key set. -/
def isWriteOperation (method : String) : Bool :=
  decide (method ∈ writeOperations)

/-! ## Server-side leader redirect (`interceptor.go`, `Unary`) -/

/-- Outcome of the unary server interceptor for one incoming RPC: either the
request proceeds to the local handler, or the interceptor replies with an
error status and (possibly empty) response header metadata. -/
inductive InterceptOutcome where
  | handled
  | reject (code : StatusCode) (metadata : List (String × String))
deriving DecidableEq, Repr

/-- Embedding of `LeaderRedirectInterceptor.Unary` (interceptor.go lines
28-80). Writes on a non-leader node are answered without invoking the
handler: `Unavailable` when `Leader()` is empty, `Internal` when the leader
address fails to convert, and otherwise `FailedPrecondition` together with
the `x-leader-addr` / `x-redirect` header. The `grpc.SetHeader` call is
modelled as succeeding. -/
def unaryIntercept (node : ClusterNodeView) (method : String) : InterceptOutcome :=
  if isWriteOperation method then
    if node.state = RaftState.leader then
      .handled
    else
      let leaderRaftAddr := node.leaderAddr
      if leaderRaftAddr = "" then
        .reject .unavailable []
      else
        match convertRaftToClusterAddr leaderRaftAddr with
        | .error _ => .reject .internal []
        | .ok leaderClusterAddr =>
          .reject .failedPrecondition
            [("x-leader-addr", leaderClusterAddr), ("x-redirect", "true")]
  else
    .handled

/-! ## Cluster info (`server.go`, `GetClusterInfo`) -/

/-- Node entry of the `GetClusterInfo` response (`pb.NodeInfo`). -/
structure NodeInfo where
  nodeId : String
  addr : String
  state : String
  isVoter : Bool
deriving DecidableEq, Repr

/-- Response of `GetClusterInfo` (`pb.ClusterInfoResponse`). -/
structure ClusterInfoResponse where
  leaderId : String
  leaderAddr : String
  nodes : List NodeInfo
  state : String
deriving DecidableEq, Repr

/-- Embedding of `ClusterServer.getLeaderAddr` (server.go lines 72-74): the
raw `raftNode.Leader()` string. -/
def getLeaderAddr (node : ClusterNodeView) : String :=
  node.leaderAddr

/-- Embedding of `ClusterServer.findLeaderID` (server.go lines 176-183). -/
def findLeaderID : List RaftServer → String → String
  | [], _ => ""
  | s :: rest, leaderAddr =>
    if s.address = leaderAddr then s.id else findLeaderID rest leaderAddr

/-- String rendering of `raft.RaftState.String()`. -/
def RaftState.toGoString : RaftState → String
  | .follower => "Follower"
  | .candidate => "Candidate"
  | .leader => "Leader"
  | .shutdown => "Shutdown"

/-- Embedding of `ClusterServer.GetClusterInfo` (server.go lines 141-173),
modelling the configuration future as available. The `LeaderAddr` field is
set to `getLeaderAddr` verbatim, with no address conversion. -/
def getClusterInfo (node : ClusterNodeView) : ClusterInfoResponse :=
  let leaderAddr := getLeaderAddr node
  { leaderId := findLeaderID node.servers leaderAddr
    leaderAddr := leaderAddr
    nodes := node.servers.map (fun s =>
      { nodeId := s.id
        addr := s.address
        state := if s.address = leaderAddr then "leader" else "follower"
        isVoter := s.suffrage = Suffrage.voter })
    state := node.state.toGoString }

/-! ## Replicated commands (package `consensus`, types.go) -/

/-- Embedding of `CommandType` (`CmdCreateCollection = 1`, `CmdInsert`,
`CmdDelete`, `CmdUpdate`, `CmdDropCollection`). -/
inductive CommandType where
  | createCollection
  | insert
  | delete
  | update
  | dropCollection
deriving DecidableEq, Repr

/-- Distance function of a collection (`types.DistanceCosine` and friends
in the standalone Go client). -/
inductive Distance where
  | cosine
  | euclidean
  | innerProduct
deriving DecidableEq, Repr

/-- Embedding of `types.CollectionConfig` as built in the CLI handler.
Vector components carry no meaning for any control flow modelled here;
32-bit floats are represented by their bit patterns as naturals. -/
structure CollectionConfig where
  collectionName : String
  distance : Distance
  vectorDimension : Int
  payloadTableSchema : String
deriving DecidableEq, Repr

/-- Embedding of `types.InsertPoint` (standalone client `types` package).
The `Vector []float32` field is modelled as the list of 32-bit patterns. -/
structure InsertPoint where
  collectionName : String
  id : Int
  vector : List Nat
  payloadInsertQuery : String
deriving DecidableEq, Repr

/-- Typed model of the `json.RawMessage` payload carried by a `Command`.
The Go payload is an opaque byte blob that each apply branch unmarshals
into its own target type; the embedding represents a payload by the typed
value it decodes to (or `malformed` when it decodes to none of them). -/
inductive CommandPayload where
  | collectionConfig (cfg : CollectionConfig)
  | insertPoint (p : InsertPoint)
  | deletePayload (collectionName : String) (id : Int)
  | dropPayload (collectionName : String)
  | malformed
deriving DecidableEq, Repr

/-- Embedding of `Command` (package `consensus`): a type tag and a payload
blob. -/
structure Command where
  type : CommandType
  payload : CommandPayload
deriving DecidableEq, Repr

/-- Result of `json.Unmarshal(payload, &collectionConfig)` inside
`applyCreateCollection`. -/
def unmarshalCollectionConfig : CommandPayload → Except String CollectionConfig
  | .collectionConfig cfg => .ok cfg
  | _ => .error "failed to unmarshal collection config"

/-- Result of `json.Unmarshal(payload, &insertPoint)` inside `applyInsert`. -/
def unmarshalInsertPoint : CommandPayload → Except String InsertPoint
  | .insertPoint p => .ok p
  | _ => .error "failed to unmarshal insert point"

/-! ## The FSM (package `consensus`, `VxFSM`) -/

/-- One RPC issued by the FSM to the local backend vector store through
`f.VectorClient`. -/
inductive BackendCall where
  | createCollection (cfg : CollectionConfig)
  | insert (p : InsertPoint)
  | delete (collectionName : String) (id : Int)
  | dropCollection (collectionName : String)
deriving DecidableEq, Repr

/-- Embedding of `ApplyResult` (`Data interface, Error error`); both fields
are optional, `none` modelling Go `nil`. -/
structure ApplyResult where
  data : Option String
  error : Option String
deriving DecidableEq, Repr

/-- Outcome of one `VxFSM.Apply` invocation: either the FSM halts the
process (`log.Fatalf`) or it returns an `ApplyResult` to the Raft library. -/
inductive FSMOutcome where
  | fatal (msg : String)
  | res (r : ApplyResult)
deriving DecidableEq, Repr

/-- Embedding of `VxFSM.applyCreateCollection`: unmarshal the payload
(returning the error in `ApplyResult.Error` on failure), call the backend
`CreateCollection` discarding its result, and return an empty
`ApplyResult`. The backend is an explicit oracle and the calls issued are
recorded. -/
def applyCreateCollection (backend : BackendCall → Except String Unit)
    (payload : CommandPayload) : FSMOutcome × List BackendCall :=
  match unmarshalCollectionConfig payload with
  | .error e => (.res { data := none, error := some e }, [])
  | .ok cfg =>
    let _ := backend (.createCollection cfg)
    (.res { data := none, error := none }, [.createCollection cfg])

/-- Embedding of `VxFSM.applyInsert`: on payload unmarshal failure the Go
code calls `log.Fatalf` (halting the process); on success it calls the
backend `Insert`, discards its result, and returns an empty `ApplyResult`. -/
def applyInsert (backend : BackendCall → Except String Unit)
    (payload : CommandPayload) : FSMOutcome × List BackendCall :=
  match unmarshalInsertPoint payload with
  | .error _ => (.fatal "failed deserialize the insert point", [])
  | .ok p =>
    let _ := backend (.insert p)
    (.res { data := none, error := none }, [.insert p])

/-- Embedding of the dispatch in `VxFSM.Apply` on a successfully decoded
`Command` envelope: `CmdCreateCollection` and `CmdInsert` go to their
helpers; every other command type falls to the `default` branch, which
only logs and returns `ApplyResult` with a nil error, issuing no backend
call. -/
def fsmApply (backend : BackendCall → Except String Unit)
    (cmd : Command) : FSMOutcome × List BackendCall :=
  match cmd.type with
  | .createCollection => applyCreateCollection backend cmd.payload
  | .insert => applyInsert backend cmd.payload
  | _ => (.res { data := none, error := none }, [])

/-! ## Server Delete handler (`server.go` + `cmd/cli/main.go`) -/

/-- Request of the `Delete` RPC (`pb.DeleteRequest`). -/
structure DeleteRequest where
  collectionName : String
  id : Int
deriving DecidableEq, Repr

/-- Response of the `Delete` RPC (`pb.DeleteResponse`). -/
structure DeleteResponse where
  success : Bool
  message : String
deriving DecidableEq, Repr

/-- Embedding of the `OnDelete` callback registered in
`cmd/cli/main.go` (lines 469-472): it logs and returns `nil`. It builds no
`Command` and submits nothing to `raftNode.Apply`; the second component
records the commands submitted to Raft (none). -/
def onDelete (_req : DeleteRequest) : Except String Unit × List Command :=
  (.ok (), [])

/-- Embedding of `ClusterServer.Delete` (server.go lines 115-129) with the
`onDelete` callback installed: on a `nil` error from the callback the
server replies success; the list component collects the commands the
handler submitted to Raft. -/
def serverDelete (req : DeleteRequest) : DeleteResponse × List Command :=
  match onDelete req with
  | (.ok _, cmds) => ({ success := true, message := "deleted successfully" }, cmds)
  | (.error e, cmds) => ({ success := false, message := e }, cmds)

/-! ## Client-side redirect interceptor (package `client`, interceptor.go) -/

/-- Result of one invocation of the wrapped gRPC call, as the client
interceptor observes it: the error status (if any) and the two response
header entries it reads, `header.Get("x-leader-addr")` and
`header.Get("x-redirect")`. -/
structure CallResult where
  errCode : Option StatusCode
  leaderAddrs : List String
  redirects : List String
deriving DecidableEq, Repr

/-- Embedding of `NewRedirectInterceptor`: a non-positive configured
maximum falls back to 3. -/
def newRedirectInterceptorMax (maxRedirects : Int) : Int :=
  if maxRedirects ≤ 0 then 3 else maxRedirects

/-- The redirect condition of `invokeWithRedirect` (client interceptor.go
lines 237-242): the call failed with `FailedPrecondition`, the
`x-leader-addr` header key is present (one or more values, of any
content), and the first `x-redirect` value is the string true. -/
def shouldRedirect (r : CallResult) : Bool :=
  r.errCode = some StatusCode.failedPrecondition &&
    decide (r.leaderAddrs ≠ []) && (r.redirects.head? = some "true")

/-- Outcome of `invokeWithRedirect` as seen by the application: the final
call's result propagated unchanged, or the terminal max-redirects error. -/
inductive InvokeOutcome where
  | result (r : CallResult)
  | maxRedirectsExceeded (max : Nat)
deriving DecidableEq, Repr

/-- Embedding of `RedirectInterceptor.invokeWithRedirect` (client
interceptor.go lines 211-268). The transport is the oracle `invoker`,
indexed by the attempt number and the dialled address; connection pooling
(`getOrCreateConnection`) is address-resolution only and is modelled as
always yielding a connection to the requested address. The second
component counts the invocations performed. Recursion terminates because
`redirectCount` strictly increases toward `maxRedirects`. -/
def invokeWithRedirect (invoker : Nat → String → CallResult) (maxRedirects : Nat)
    (addr : String) (redirectCount : Nat) : InvokeOutcome × Nat :=
  if maxRedirects ≤ redirectCount then
    (.maxRedirectsExceeded maxRedirects, 0)
  else
    let r := invoker redirectCount addr
    if shouldRedirect r then
      let rec2 :=
        invokeWithRedirect invoker maxRedirects r.leaderAddrs.headI (redirectCount + 1)
      (rec2.1, rec2.2 + 1)
    else
      (.result r, 1)
termination_by maxRedirects - redirectCount
decreasing_by omega

/-! ## Snapshot chunk data model (`vector_xlite_go_client/types/snapshot.go`) -/

/-- Embedding of `SnapshotFileType` (`Unknown = 0`, `SqliteDB`, `HnswIndex`,
`Wal`). -/
inductive SnapshotFileType where
  | unknown
  | sqliteDB
  | hnswIndex
  | wal
deriving DecidableEq, Repr

/-- Embedding of `SnapshotFileInfo`. -/
structure SnapshotFileInfo where
  fileName : String
  fileType : SnapshotFileType
  fileSize : Nat
  checksum : String
deriving DecidableEq, Repr

/-- Embedding of `SnapshotMetadata`. -/
structure SnapshotMetadata where
  snapshotId : String
  createdAt : Int
  totalSize : Nat
  files : List SnapshotFileInfo
  version : Nat
  checksum : String
deriving DecidableEq, Repr

/-- Embedding of `FileChunk`; the `Data []byte` field is a list of byte
values. -/
structure FileChunk where
  fileName : String
  offset : Nat
  data : List Nat
  isLastChunk : Bool
deriving DecidableEq, Repr

/-- Embedding of `SnapshotChunk`: optional metadata (chunk 0), optional
file data, a sequence number and the final-chunk flag. -/
structure SnapshotChunk where
  metadata : Option SnapshotMetadata
  fileChunk : Option FileChunk
  sequence : Nat
  isFinal : Bool
deriving DecidableEq, Repr

/-! ## Chunk serialization

The Go code serializes a `SnapshotChunk` with `encoding/json` (standard
library, outside this repository) before framing it, and deserializes with
`json.Unmarshal`, which fails unless the whole input is one well-formed
document. The embedding models that external codec as a concrete injective
byte serialization together with prefix parsers; the round-trip law the
framing relies on — unmarshal of a marshalled chunk returns the chunk — is
proved, not assumed. Symbols are naturals; a number occupies one symbol. -/

/-- Serialize a natural number. -/
def encNat (n : Nat) : List Nat := [n]

/-- Parse a natural number from the front of a stream. -/
def parseNat : List Nat → Option (Nat × List Nat)
  | n :: rest => some (n, rest)
  | [] => none

/-- Serialize a boolean. -/
def encBool (b : Bool) : List Nat := [if b then 1 else 0]

/-- Parse a boolean. -/
def parseBool : List Nat → Option (Bool × List Nat)
  | 0 :: rest => some (false, rest)
  | 1 :: rest => some (true, rest)
  | _ => none

/-- Serialize an integer in sign-magnitude form. -/
def encInt (i : Int) : List Nat :=
  if i < 0 then [1, (-(i + 1)).toNat] else [0, i.toNat]

/-- Parse an integer. -/
def parseInt : List Nat → Option (Int × List Nat)
  | 0 :: n :: rest => some ((n : Int), rest)
  | 1 :: n :: rest => some (-((n : Int) + 1), rest)
  | _ => none

/-- Serialize a string as its length followed by its code points. -/
def encString (s : String) : List Nat :=
  s.data.length :: s.data.map Char.toNat

/-- Parse a string. -/
def parseString : List Nat → Option (String × List Nat)
  | n :: rest =>
    if n ≤ rest.length then
      some (String.mk ((rest.take n).map Char.ofNat), rest.drop n)
    else none
  | [] => none

/-- Serialize a byte list as its length followed by its bytes. -/
def encBytes (data : List Nat) : List Nat := data.length :: data

/-- Parse a byte list. -/
def parseBytes : List Nat → Option (List Nat × List Nat)
  | n :: rest =>
    if n ≤ rest.length then some (rest.take n, rest.drop n) else none
  | [] => none

/-- Serialize a list as its length followed by its serialized elements. -/
def encList (enc : α → List Nat) (xs : List α) : List Nat :=
  xs.length :: xs.flatMap enc

/-- Parse a known number of elements. -/
def parseListAux (p : List Nat → Option (α × List Nat)) :
    Nat → List Nat → Option (List α × List Nat)
  | 0, rest => some ([], rest)
  | n + 1, rest =>
    match p rest with
    | none => none
    | some (x, rest1) =>
      match parseListAux p n rest1 with
      | none => none
      | some (xs, rest2) => some (x :: xs, rest2)

/-- Parse a length-prefixed list. -/
def parseList (p : List Nat → Option (α × List Nat)) :
    List Nat → Option (List α × List Nat)
  | n :: rest => parseListAux p n rest
  | [] => none

/-- Serialize an optional value with a presence tag. -/
def encOpt (enc : α → List Nat) : Option α → List Nat
  | none => [0]
  | some x => 1 :: enc x

/-- Parse an optional value. -/
def parseOpt (p : List Nat → Option (α × List Nat)) :
    List Nat → Option (Option α × List Nat)
  | 0 :: rest => some (none, rest)
  | 1 :: rest =>
    match p rest with
    | none => none
    | some (x, rest1) => some (some x, rest1)
  | _ => none

/-- Numeric value of a file type, as in the Go iota constants. -/
def SnapshotFileType.toNat : SnapshotFileType → Nat
  | .unknown => 0
  | .sqliteDB => 1
  | .hnswIndex => 2
  | .wal => 3

/-- Serialize a file type. -/
def encFileType (t : SnapshotFileType) : List Nat := [t.toNat]

/-- Parse a file type. -/
def parseFileType : List Nat → Option (SnapshotFileType × List Nat)
  | 0 :: rest => some (.unknown, rest)
  | 1 :: rest => some (.sqliteDB, rest)
  | 2 :: rest => some (.hnswIndex, rest)
  | 3 :: rest => some (.wal, rest)
  | _ => none

/-- Serialize a `SnapshotFileInfo`. -/
def encFileInfo (f : SnapshotFileInfo) : List Nat :=
  encString f.fileName ++ encFileType f.fileType ++ encNat f.fileSize ++
    encString f.checksum

/-- Parse a `SnapshotFileInfo`. -/
def parseFileInfo (s : List Nat) : Option (SnapshotFileInfo × List Nat) :=
  match parseString s with
  | none => none
  | some (fileName, s1) =>
    match parseFileType s1 with
    | none => none
    | some (fileType, s2) =>
      match parseNat s2 with
      | none => none
      | some (fileSize, s3) =>
        match parseString s3 with
        | none => none
        | some (checksum, s4) =>
          some ({ fileName, fileType, fileSize, checksum }, s4)

/-- Serialize a `SnapshotMetadata`. -/
def encMetadata (m : SnapshotMetadata) : List Nat :=
  encString m.snapshotId ++ encInt m.createdAt ++ encNat m.totalSize ++
    encList encFileInfo m.files ++ encNat m.version ++ encString m.checksum

/-- Parse a `SnapshotMetadata`. -/
def parseMetadata (s : List Nat) : Option (SnapshotMetadata × List Nat) :=
  match parseString s with
  | none => none
  | some (snapshotId, s1) =>
    match parseInt s1 with
    | none => none
    | some (createdAt, s2) =>
      match parseNat s2 with
      | none => none
      | some (totalSize, s3) =>
        match parseList parseFileInfo s3 with
        | none => none
        | some (files, s4) =>
          match parseNat s4 with
          | none => none
          | some (version, s5) =>
            match parseString s5 with
            | none => none
            | some (checksum, s6) =>
              some ({ snapshotId, createdAt, totalSize, files, version,
                      checksum }, s6)

/-- Serialize a `FileChunk`. -/
def encFileChunk (c : FileChunk) : List Nat :=
  encString c.fileName ++ encNat c.offset ++ encBytes c.data ++
    encBool c.isLastChunk

/-- Parse a `FileChunk`. -/
def parseFileChunk (s : List Nat) : Option (FileChunk × List Nat) :=
  match parseString s with
  | none => none
  | some (fileName, s1) =>
    match parseNat s1 with
    | none => none
    | some (offset, s2) =>
      match parseBytes s2 with
      | none => none
      | some (data, s3) =>
        match parseBool s3 with
        | none => none
        | some (isLastChunk, s4) =>
          some ({ fileName, offset, data, isLastChunk }, s4)

/-- Serialize a `SnapshotChunk`; this is the model of `json.Marshal(chunk)`
in `writeChunk`. -/
def encodeSnapshotChunk (c : SnapshotChunk) : List Nat :=
  encOpt encMetadata c.metadata ++ encOpt encFileChunk c.fileChunk ++
    encNat c.sequence ++ encBool c.isFinal

/-- Parse a `SnapshotChunk` from the front of a stream. -/
def parseSnapshotChunk (s : List Nat) : Option (SnapshotChunk × List Nat) :=
  match parseOpt parseMetadata s with
  | none => none
  | some (metadata, s1) =>
    match parseOpt parseFileChunk s1 with
    | none => none
    | some (fileChunk, s2) =>
      match parseNat s2 with
      | none => none
      | some (sequence, s3) =>
        match parseBool s3 with
        | none => none
        | some (isFinal, s4) =>
          some ({ metadata, fileChunk, sequence, isFinal }, s4)

/-- Model of `json.Unmarshal(data, &chunk)` in `readChunk`: the whole
input must be consumed by one chunk document. -/
def decodeSnapshotChunk (s : List Nat) : Option SnapshotChunk :=
  match parseSnapshotChunk s with
  | some (c, []) => some c
  | _ => none

/-! ## Frame codec (package `consensus`, `writeChunk` / `readChunk` /
`writeSnapshotToSink` / `readSnapshotChunks`) -/

/-- Big-endian bytes of `uint32(n)`: Go truncates the marshalled length
with a `uint32` conversion before `binary.Write`; each byte below is
already reduced modulo 256, which realizes the `% 2 ^ 32` truncation. -/
def be32 (n : Nat) : List Nat :=
  [n / 2 ^ 24 % 256, n / 2 ^ 16 % 256, n / 2 ^ 8 % 256, n % 256]

/-- Value read back by `binary.Read` big-endian from four bytes. -/
def be32val (b0 b1 b2 b3 : Nat) : Nat :=
  ((b0 * 256 + b1) * 256 + b2) * 256 + b3

/-- Embedding of `writeChunk` (consensus fsm.go lines 163-182): the frame
bytes it writes to the sink — 4-byte big-endian length of the marshalled
chunk, then the marshalled chunk. -/
def writeChunk (c : SnapshotChunk) : List Nat :=
  be32 (encodeSnapshotChunk c).length ++ encodeSnapshotChunk c

/-- Embedding of `writeSnapshotToSink` (lines 209-216): every chunk of the
collector framed in order. -/
def writeSnapshotToSink (chunks : List SnapshotChunk) : List Nat :=
  chunks.flatMap writeChunk

/-- Result of one `readChunk` call: end of stream (`io.EOF` on the length
prefix), a read/unmarshal failure, or a chunk plus the remaining stream. -/
inductive ReadChunkResult where
  | eof
  | fail (msg : String)
  | chunk (c : SnapshotChunk) (rest : List Nat)
deriving DecidableEq, Repr

/-- Embedding of `readChunk` (lines 186-206): read the 4-byte big-endian
length (exact `io.EOF` only when zero bytes remain; one to three
remaining bytes is `ErrUnexpectedEOF`, a failure), read exactly `length`
payload bytes (`io.ReadFull`, failing on a short read), then unmarshal. -/
def readChunk : List Nat → ReadChunkResult
  | [] => .eof
  | b0 :: b1 :: b2 :: b3 :: rest =>
    let length := be32val b0 b1 b2 b3
    if rest.length < length then .fail "failed to read chunk data"
    else
      match decodeSnapshotChunk (rest.take length) with
      | none => .fail "failed to unmarshal chunk"
      | some c => .chunk c (rest.drop length)
  | _ :: _ => .fail "unexpected EOF"

/-- Embedding of `readSnapshotChunks` (lines 220-244): loop reading frames,
stopping normally at end of stream or right after the first final chunk,
failing on any other read error (wrapped with a fixed message prefix by
the surrounding `fmt.Errorf`). -/
def readSnapshotChunks (s : List Nat) : Except String (List SnapshotChunk) :=
  match h : readChunk s with
  | .eof => .ok []
  | .fail e => .error ("failed to read chunk: " ++ e)
  | .chunk c rest =>
    if c.isFinal then .ok [c]
    else
      match readSnapshotChunks rest with
      | .error e => .error e
      | .ok cs => .ok (c :: cs)
termination_by s.length
decreasing_by
  cases s with
  | nil => simp [readChunk] at h
  | cons b0 t0 =>
    cases t0 with
    | nil => simp [readChunk] at h
    | cons b1 t1 =>
      cases t1 with
      | nil => simp [readChunk] at h
      | cons b2 t2 =>
        cases t2 with
        | nil => simp [readChunk] at h
        | cons b3 r =>
          simp only [readChunk] at h
          by_cases hlt : r.length < be32val b0 b1 b2 b3
          · simp [hlt] at h
          · simp only [hlt, if_false] at h
            cases hdec : decodeSnapshotChunk (r.take (be32val b0 b1 b2 b3)) with
            | none => simp [hdec] at h
            | some c0 =>
              simp only [hdec] at h
              cases h
              simp only [List.length_drop, List.length_cons]
              omega

/-- Outcome of `VxFSM.Restore`: either the chunk read failed — in which
case the backend `ImportSnapshot` RPC is never issued and the backend
state is untouched — or the full chunk list is handed to
`ImportSnapshot`. -/
inductive RestoreOutcome where
  | failed (e : String)
  | imported (chunks : List SnapshotChunk)
deriving DecidableEq, Repr

/-- Embedding of `VxFSM.Restore` (fsm.go lines 130-142): read all chunks;
on error return it; otherwise pass the chunks to the backend import. -/
def fsmRestore (s : List Nat) : RestoreOutcome :=
  match readSnapshotChunks s with
  | .error e => .failed e
  | .ok chunks => .imported chunks

/-! ## Concrete test vectors

Small closed values used by witness theorems to instantiate the general
statements on concrete inputs. -/

/-- Metadata chunk of a two-chunk test snapshot. -/
def chunkMeta : SnapshotChunk where
  metadata := some
    { snapshotId := "s"
      createdAt := 3
      totalSize := 1
      files := [{ fileName := "f"
                  fileType := .sqliteDB
                  fileSize := 1
                  checksum := "c" }]
      version := 1
      checksum := "c" }
  fileChunk := none
  sequence := 0
  isFinal := false

/-- Final data chunk of a two-chunk test snapshot. -/
def chunkData : SnapshotChunk where
  metadata := none
  fileChunk := some
    { fileName := "f"
      offset := 0
      data := [7]
      isLastChunk := true }
  sequence := 1
  isFinal := true

/-- Metadata chunk of a second test snapshot. -/
def chunkMeta2 : SnapshotChunk where
  metadata := some
    { snapshotId := "t"
      createdAt := 0
      totalSize := 2
      files := []
      version := 1
      checksum := "d" }
  fileChunk := none
  sequence := 0
  isFinal := false

/-- Final data chunk of a second test snapshot. -/
def chunkData2 : SnapshotChunk where
  metadata := none
  fileChunk := some
    { fileName := "g"
      offset := 0
      data := [1, 2]
      isLastChunk := true }
  sequence := 1
  isFinal := true

/-! ## Round-trip laws of the chunk serialization -/

theorem parseNat_enc (n : Nat) (r : List Nat) :
    parseNat (encNat n ++ r) = some (n, r) := rfl

theorem parseBool_enc (b : Bool) (r : List Nat) :
    parseBool (encBool b ++ r) = some (b, r) := by
  cases b <;> rfl

theorem parseInt_enc (i : Int) (r : List Nat) :
    parseInt (encInt i ++ r) = some (i, r) := by
  by_cases h : i < 0
  · simp only [encInt, if_pos h, List.cons_append, List.nil_append, parseInt,
      Option.some.injEq, Prod.mk.injEq, and_true]
    omega
  · simp only [encInt, if_neg h, List.cons_append, List.nil_append, parseInt,
      Option.some.injEq, Prod.mk.injEq, and_true]
    omega

theorem parseString_enc (s : String) (r : List Nat) :
    parseString (encString s ++ r) = some (s, r) := by
  have hlen : (s.data.map Char.toNat).length = s.data.length := List.length_map ..
  simp only [encString, List.cons_append, parseString, List.length_append, hlen,
    List.take_left' hlen, List.drop_left' hlen, Nat.le_add_right, if_pos,
    List.map_map]
  have hmap : (s.data.map (Char.ofNat ∘ Char.toNat)) = s.data := by
    simp [Function.comp_def, Char.ofNat_toNat]
  simp [hmap]

theorem parseBytes_enc (d : List Nat) (r : List Nat) :
    parseBytes (encBytes d ++ r) = some (d, r) := by
  simp [encBytes, parseBytes, List.take_left, List.drop_left]

theorem parseListAux_enc {α : Type} (p : List Nat → Option (α × List Nat))
    (enc : α → List Nat) (hp : ∀ x r, p (enc x ++ r) = some (x, r))
    (xs : List α) (r : List Nat) :
    parseListAux p xs.length (xs.flatMap enc ++ r) = some (xs, r) := by
  induction xs generalizing r with
  | nil => rfl
  | cons x xs ih =>
    simp only [List.length_cons, List.flatMap_cons, List.append_assoc,
      parseListAux, hp, ih]

theorem parseList_enc {α : Type} (p : List Nat → Option (α × List Nat))
    (enc : α → List Nat) (hp : ∀ x r, p (enc x ++ r) = some (x, r))
    (xs : List α) (r : List Nat) :
    parseList p (encList enc xs ++ r) = some (xs, r) := by
  simp only [encList, List.cons_append, parseList, parseListAux_enc p enc hp]

theorem parseOpt_enc {α : Type} (p : List Nat → Option (α × List Nat))
    (enc : α → List Nat) (hp : ∀ x r, p (enc x ++ r) = some (x, r))
    (o : Option α) (r : List Nat) :
    parseOpt p (encOpt enc o ++ r) = some (o, r) := by
  cases o with
  | none => rfl
  | some x => simp only [encOpt, List.cons_append, parseOpt, hp]

theorem parseFileType_enc (t : SnapshotFileType) (r : List Nat) :
    parseFileType (encFileType t ++ r) = some (t, r) := by
  cases t <;> rfl

theorem parseFileInfo_enc (f : SnapshotFileInfo) (r : List Nat) :
    parseFileInfo (encFileInfo f ++ r) = some (f, r) := by
  simp only [encFileInfo, List.append_assoc, parseFileInfo, parseString_enc,
    parseFileType_enc, parseNat_enc]

theorem parseMetadata_enc (m : SnapshotMetadata) (r : List Nat) :
    parseMetadata (encMetadata m ++ r) = some (m, r) := by
  simp only [encMetadata, List.append_assoc, parseMetadata, parseString_enc,
    parseInt_enc, parseNat_enc, parseList_enc parseFileInfo encFileInfo
    parseFileInfo_enc]

theorem parseFileChunk_enc (c : FileChunk) (r : List Nat) :
    parseFileChunk (encFileChunk c ++ r) = some (c, r) := by
  simp only [encFileChunk, List.append_assoc, parseFileChunk, parseString_enc,
    parseNat_enc, parseBytes_enc, parseBool_enc]

theorem parseSnapshotChunk_enc (c : SnapshotChunk) (r : List Nat) :
    parseSnapshotChunk (encodeSnapshotChunk c ++ r) = some (c, r) := by
  simp only [encodeSnapshotChunk, List.append_assoc, parseSnapshotChunk,
    parseOpt_enc parseMetadata encMetadata parseMetadata_enc,
    parseOpt_enc parseFileChunk encFileChunk parseFileChunk_enc,
    parseNat_enc, parseBool_enc]

/-- Unmarshal of a marshalled chunk returns the chunk: the model of the
`encoding/json` round trip relied on by the frame codec. -/
theorem decodeSnapshotChunk_enc (c : SnapshotChunk) :
    decodeSnapshotChunk (encodeSnapshotChunk c) = some c := by
  have h := parseSnapshotChunk_enc c []
  rw [List.append_nil] at h
  simp [decodeSnapshotChunk, h]

/-- A marshalled chunk is never empty. -/
theorem encodeSnapshotChunk_ne_nil (c : SnapshotChunk) :
    encodeSnapshotChunk c ≠ [] := by
  cases h : c.metadata <;> simp [encodeSnapshotChunk, encOpt, h]

/-- Reading back four big-endian bytes of a length below `2 ^ 32` returns
the length. -/
theorem be32val_be32 {n : Nat} (h : n < 2 ^ 32) :
    be32val (n / 2 ^ 24 % 256) (n / 2 ^ 16 % 256) (n / 2 ^ 8 % 256) (n % 256)
      = n := by
  simp only [be32val]
  omega

/-- Frame parsing: `readChunk` on a well-formed frame followed by anything
yields the framed chunk and the remainder. -/
theorem readChunk_writeChunk (c : SnapshotChunk) (rest : List Nat)
    (h : (encodeSnapshotChunk c).length < 2 ^ 32) :
    readChunk (writeChunk c ++ rest) = .chunk c (rest) := by
  have hval := be32val_be32 h
  have hlen : (encodeSnapshotChunk c ++ rest).length <
      (encodeSnapshotChunk c).length → False := by
    simp only [List.length_append]
    omega
  simp only [writeChunk, be32, List.cons_append, List.nil_append, readChunk,
    List.append_assoc, hval]
  rw [if_neg hlen]
  simp only [List.take_left, List.drop_left, decodeSnapshotChunk_enc]

/-! ## Stream-level behavior of `readSnapshotChunks` -/

/-- Unfolding of `readChunk` on a stream of at least four bytes. -/
theorem readChunk_cons (b0 b1 b2 b3 : Nat) (rest : List Nat) :
    readChunk (b0 :: b1 :: b2 :: b3 :: rest) =
      if rest.length < be32val b0 b1 b2 b3 then .fail "failed to read chunk data"
      else
        match decodeSnapshotChunk (rest.take (be32val b0 b1 b2 b3)) with
        | none => .fail "failed to unmarshal chunk"
        | some c => .chunk c (rest.drop (be32val b0 b1 b2 b3)) := rfl

/-- Unfolding of `readChunk` on a four-byte length below `2 ^ 32` followed
by the rest of the stream. -/
theorem readChunk_be32 (n : Nat) (rest : List Nat) (h : n < 2 ^ 32) :
    readChunk (be32 n ++ rest) =
      if rest.length < n then .fail "failed to read chunk data"
      else
        match decodeSnapshotChunk (rest.take n) with
        | none => .fail "failed to unmarshal chunk"
        | some c => .chunk c (rest.drop n) := by
  have hb : be32 n ++ rest =
      n / 2 ^ 24 % 256 :: n / 2 ^ 16 % 256 :: n / 2 ^ 8 % 256 :: n % 256 :: rest :=
    rfl
  rw [hb, readChunk_cons, be32val_be32 h]

/-- Loop step of `readSnapshotChunks` at end of stream. -/
theorem readSnapshotChunks_eof {s : List Nat} (h : readChunk s = .eof) :
    readSnapshotChunks s = .ok [] := by
  rw [readSnapshotChunks]
  split
  · rfl
  · rename_i heq; rw [h] at heq; cases heq
  · rename_i heq; rw [h] at heq; cases heq

/-- Loop step of `readSnapshotChunks` on a frame failure. -/
theorem readSnapshotChunks_fail {s : List Nat} {e : String}
    (h : readChunk s = .fail e) :
    readSnapshotChunks s = .error ("failed to read chunk: " ++ e) := by
  rw [readSnapshotChunks]
  split
  · rename_i heq; rw [h] at heq; cases heq
  · rename_i e2 heq
    rw [h] at heq
    cases heq
    rfl
  · rename_i heq; rw [h] at heq; cases heq

/-- Loop step of `readSnapshotChunks` on a successfully read chunk. -/
theorem readSnapshotChunks_chunk {s rest : List Nat} {c : SnapshotChunk}
    (h : readChunk s = .chunk c rest) :
    readSnapshotChunks s =
      if c.isFinal then .ok [c]
      else (readSnapshotChunks rest).map (fun cs => c :: cs) := by
  rw [readSnapshotChunks]
  split
  · rename_i heq; rw [h] at heq; cases heq
  · rename_i heq; rw [h] at heq; cases heq
  · rename_i c2 rest2 heq
    rw [h] at heq
    cases heq
    cases hf : c.isFinal
    · simp only [if_false, Bool.false_eq_true]
      cases readSnapshotChunks rest <;> rfl
    · simp only [if_true]

/-- Reading a stream that starts with the frame of a final chunk stops
right after that chunk. -/
theorem readSnapshotChunks_final (c : SnapshotChunk) (rest : List Nat)
    (hlen : (encodeSnapshotChunk c).length < 2 ^ 32) (hf : c.isFinal = true) :
    readSnapshotChunks (writeChunk c ++ rest) = .ok [c] := by
  rw [readSnapshotChunks_chunk (readChunk_writeChunk c rest hlen), hf]
  rfl

/-- Reading a stream that starts with the frame of a non-final chunk
prepends that chunk to whatever the remainder reads to, and propagates a
remainder error. -/
theorem readSnapshotChunks_cons (c : SnapshotChunk) (rest : List Nat)
    (hlen : (encodeSnapshotChunk c).length < 2 ^ 32) (hf : c.isFinal = false) :
    readSnapshotChunks (writeChunk c ++ rest) =
      (readSnapshotChunks rest).map (fun cs => c :: cs) := by
  rw [readSnapshotChunks_chunk (readChunk_writeChunk c rest hlen), hf]
  rfl

/-- Reading the concatenation of well-formed non-final frames and an
arbitrary remainder stream reads the framed chunks, then continues in the
remainder; errors in the remainder propagate. -/
theorem readSnapshotChunks_flatMap (pre : List SnapshotChunk) (s : List Nat)
    (hnf : ∀ c ∈ pre, c.isFinal = false)
    (hlen : ∀ c ∈ pre, (encodeSnapshotChunk c).length < 2 ^ 32) :
    readSnapshotChunks (pre.flatMap writeChunk ++ s) =
      (readSnapshotChunks s).map (fun cs => pre ++ cs) := by
  induction pre with
  | nil =>
    simp only [List.flatMap_nil, List.nil_append]
    cases readSnapshotChunks s <;> rfl
  | cons c pre ih =>
    have hc : c.isFinal = false := hnf c (List.mem_cons_self ..)
    have hcl : (encodeSnapshotChunk c).length < 2 ^ 32 :=
      hlen c (List.mem_cons_self ..)
    have ih2 := ih (fun x hx => hnf x (List.mem_cons_of_mem c hx))
      (fun x hx => hlen x (List.mem_cons_of_mem c hx))
    simp only [List.flatMap_cons, List.append_assoc]
    rw [readSnapshotChunks_cons c _ hcl hc, ih2]
    cases readSnapshotChunks s <;> rfl

/-- Truncating the last byte of a frame makes `readChunk` fail with a
short payload read (or, for an empty marshalled payload, a short length
read) — and `readSnapshotChunks` fail accordingly. -/
theorem readSnapshotChunks_truncated (c : SnapshotChunk)
    (hlen : (encodeSnapshotChunk c).length < 2 ^ 32) :
    readSnapshotChunks ((writeChunk c).dropLast) =
      .error "failed to read chunk: failed to read chunk data" := by
  have hne := encodeSnapshotChunk_ne_nil c
  have hdrop : (writeChunk c).dropLast =
      be32 (encodeSnapshotChunk c).length ++ (encodeSnapshotChunk c).dropLast := by
    rw [writeChunk, List.dropLast_append_of_ne_nil _ hne]
  have hpos : 0 < (encodeSnapshotChunk c).length := List.length_pos.mpr hne
  have hshort : (encodeSnapshotChunk c).dropLast.length <
      (encodeSnapshotChunk c).length := by
    simp only [List.length_dropLast]
    omega
  have hrc : readChunk ((writeChunk c).dropLast) = .fail "failed to read chunk data" := by
    rw [hdrop, readChunk_be32 _ _ hlen, if_pos hshort]
  exact readSnapshotChunks_fail hrc

/-- A frame whose payload does not unmarshal makes the chunk read fail. -/
theorem readSnapshotChunks_badFrame (p : List Nat)
    (hdec : decodeSnapshotChunk p = none) (hp : p.length < 2 ^ 32) :
    readSnapshotChunks (be32 p.length ++ p) =
      .error "failed to read chunk: failed to unmarshal chunk" := by
  have hrc : readChunk (be32 p.length ++ p) = .fail "failed to unmarshal chunk" := by
    rw [readChunk_be32 _ _ hp, if_neg (lt_irrefl p.length), List.take_length, hdec]
  exact readSnapshotChunks_fail hrc

/-! ## Claim C1 — Delete through Raft -/

/-- Claim C1, counterexample. The claim states that a Delete request
handled on the leader is serialized into a `Command` and submitted through
`ConsensusNode.apply`, returning success only after commit. On the code,
the `OnDelete` callback is a stub: for the concrete request
(users, 1) the server replies success while the list of commands submitted
to Raft is empty, so no Delete command is ever proposed, committed, or
applied. -/
theorem c1_delete_not_replicated_counterexample :
    (serverDelete { collectionName := "users", id := 1 }).2 = [] ∧
      (serverDelete { collectionName := "users", id := 1 }).1 =
        { success := true, message := "deleted successfully" } :=
  ⟨rfl, rfl⟩

/-- Claim C1, amended: for every Delete request the installed `OnDelete`
callback logs and returns nil without building a `Command` or calling
`ConsensusNode.apply`; the server then unconditionally replies
success — Delete is not sequenced through Raft at all. -/
theorem c1_delete_handler_is_stub (req : DeleteRequest) :
    serverDelete req =
      ({ success := true, message := "deleted successfully" }, []) :=
  rfl

/-! ## Claim C2 — FSM apply of Delete and DropCollection -/

/-- Claim C2, counterexample. The claim states that a committed Delete
command leads the FSM to call the backend `Delete` (and DropCollection to
`DropCollection`). On the code, both command types fall into the `default`
branch of `VxFSM.Apply`: for a concrete Delete command and a
DropCollection command the FSM returns a nil-error `ApplyResult` while
issuing no backend call whatsoever. -/
theorem c2_fsm_skips_delete_counterexample :
    fsmApply (fun _ => .ok ())
        { type := .delete, payload := .deletePayload "users" 1 } =
      (.res { data := none, error := none }, []) ∧
    fsmApply (fun _ => .ok ())
        { type := .dropCollection, payload := .dropPayload "users" } =
      (.res { data := none, error := none }, []) ∧
    ([] : List BackendCall) ≠ [BackendCall.delete "users" 1] :=
  ⟨rfl, rfl, by decide⟩

/-- Claim C2, amended: committed Delete and DropCollection commands are
silently skipped by `VxFSM.Apply` — they hit the default branch, which
returns `ApplyResult` with a nil error and performs no backend call, for
every backend and every payload. -/
theorem c2_fsm_default_branch_skips
    (backend : BackendCall → Except String Unit) (payload : CommandPayload) :
    fsmApply backend { type := .delete, payload := payload } =
      (.res { data := none, error := none }, []) ∧
    fsmApply backend { type := .dropCollection, payload := payload } =
      (.res { data := none, error := none }, []) :=
  ⟨rfl, rfl⟩

/-! ## Claim C3 — backend errors in ApplyResult -/

/-- Claim C3, counterexample. The claim states that a failing backend call
during a committed Insert or CreateCollection surfaces the backend error
in the returned `ApplyResult`. On the code, the backend call result is
discarded: with a backend that fails every call, applying a well-formed
Insert command still returns an `ApplyResult` whose error is nil. -/
theorem c3_backend_error_dropped_counterexample :
    fsmApply (fun _ => .error "backend unavailable")
        { type := .insert,
          payload := .insertPoint
            { collectionName := "users", id := 1, vector := [0, 0, 0, 0],
              payloadInsertQuery := "insert" } } =
      (.res { data := none, error := none },
        [.insert { collectionName := "users", id := 1, vector := [0, 0, 0, 0],
                   payloadInsertQuery := "insert" }]) ∧
    (fun (_ : BackendCall) => (.error "backend unavailable" : Except String Unit))
        (.insert { collectionName := "users", id := 1, vector := [0, 0, 0, 0],
                   payloadInsertQuery := "insert" }) =
      .error "backend unavailable" ∧
    (some "backend unavailable" : Option String) ≠ none :=
  ⟨rfl, rfl, by decide⟩

/-- Claim C3, amended: `applyInsert` and `applyCreateCollection` ignore
the backend call's return value entirely; for every backend oracle and
every well-formed payload the `ApplyResult` has a nil error (the backend
call is still issued). Only payload-decode failures are reported (for
CreateCollection) or halt the process (for Insert). -/
theorem c3_apply_ignores_backend_result
    (backend : BackendCall → Except String Unit) (p : InsertPoint)
    (cfg : CollectionConfig) :
    fsmApply backend { type := .insert, payload := .insertPoint p } =
      (.res { data := none, error := none }, [.insert p]) ∧
    fsmApply backend
        { type := .createCollection, payload := .collectionConfig cfg } =
      (.res { data := none, error := none }, [.createCollection cfg]) :=
  ⟨rfl, rfl⟩

/-! ## Claim C4 — leader address in GetClusterInfo -/

/-- Claim C4, counterexample. The claim states that `GetClusterInfo`
returns the leader's coordination endpoint (port convention P*10+1 to
P*10+2). On the code, the response carries the raw consensus address: for
a node whose known leader consensus address is 127.0.0.1:5001 the
response field is 127.0.0.1:5001, although the conversion the claim calls
for exists and yields 127.0.0.1:5002. -/
theorem c4_cluster_info_raw_addr_counterexample :
    (getClusterInfo
        { state := .follower, leaderAddr := "127.0.0.1:5001",
          servers := [{ id := "node1", address := "127.0.0.1:5001",
                        suffrage := .voter }] }).leaderAddr =
      "127.0.0.1:5001" ∧
    convertRaftToClusterAddr "127.0.0.1:5001" = .ok "127.0.0.1:5002" ∧
    ("127.0.0.1:5001" : String) ≠ "127.0.0.1:5002" :=
  ⟨rfl, rfl, by decide⟩

/-- Claim C4, amended: `GetClusterInfo` returns the raw consensus address
`raftNode.Leader()` in its leader-address field, with no application of
`convertRaftToClusterAddr` — for every node view the response field equals
`getLeaderAddr`, the unconverted consensus endpoint. -/
theorem c4_cluster_info_returns_consensus_addr (node : ClusterNodeView) :
    (getClusterInfo node).leaderAddr = getLeaderAddr node ∧
      getLeaderAddr node = node.leaderAddr :=
  ⟨rfl, rfl⟩

/-! ## Claim C5 — write classification -/

/-- Claim C5, counterexample. The claim states that all four data-write
methods, DropCollection included, are classified as leader-only writes
and that a DropCollection RPC on a non-leader is intercepted. On the
code, `isWriteOperation` does not contain the DropCollection method, so
the interceptor forwards a DropCollection RPC straight to the local
handler even on a follower that knows a leader. -/
theorem c5_drop_collection_not_write_counterexample :
    isWriteOperation "/vectorxlite.cluster.ClusterService/DropCollection" =
      false ∧
    unaryIntercept
        { state := .follower, leaderAddr := "127.0.0.1:5001", servers := [] }
        "/vectorxlite.cluster.ClusterService/DropCollection" = .handled := by
  constructor
  · decide
  · decide

/-- Claim C5, amended: the classification treats exactly CreateCollection,
Insert, Delete, JoinCluster and LeaveCluster as leader-only; DropCollection
is not classified as a write, and a DropCollection RPC arriving at a
follower is forwarded to the local handler rather than intercepted. -/
theorem c5_write_classification :
    (∀ m : String, isWriteOperation m = true ↔
      (m = "/vectorxlite.cluster.ClusterService/CreateCollection" ∨
       m = "/vectorxlite.cluster.ClusterService/Insert" ∨
       m = "/vectorxlite.cluster.ClusterService/Delete" ∨
       m = "/vectorxlite.cluster.ClusterService/JoinCluster" ∨
       m = "/vectorxlite.cluster.ClusterService/LeaveCluster")) ∧
    unaryIntercept
        { state := .follower, leaderAddr := "127.0.0.1:5001", servers := [] }
        "/vectorxlite.cluster.ClusterService/DropCollection" = .handled := by
  constructor
  · intro m
    simp [isWriteOperation, writeOperations]
  · decide

/-! ## Claim C6 — non-leader write dispatch -/

/-- Claim C6, counterexample. The claim states that the Candidate state
always yields `Unavailable`. On the code, the interceptor branches only on
whether the known leader address is empty: a Candidate that still knows a
leader address receives the `FailedPrecondition` redirect with metadata,
not `Unavailable`. -/
theorem c6_candidate_redirect_counterexample :
    unaryIntercept
        { state := .candidate, leaderAddr := "127.0.0.1:5001", servers := [] }
        "/vectorxlite.cluster.ClusterService/Insert" =
      .reject .failedPrecondition
        [("x-leader-addr", "127.0.0.1:5002"), ("x-redirect", "true")] ∧
    InterceptOutcome.reject .failedPrecondition
        [("x-leader-addr", "127.0.0.1:5002"), ("x-redirect", "true")] ≠
      .reject .unavailable [] := by
  refine ⟨rfl, ?_⟩
  decide

/-- Claim C6, amended: for every write RPC on a non-leader node (Follower
or Candidate alike), an empty known leader address yields `Unavailable`
with no metadata; a nonempty leader address that converts under the port
convention yields `FailedPrecondition` with the x-leader-addr and
x-redirect metadata and no handler invocation; and a nonempty leader
address that fails to convert yields `Internal` with no metadata. -/
theorem c6_nonleader_write_dispatch (node : ClusterNodeView) (method : String)
    (hw : isWriteOperation method = true) (hnl : node.state ≠ .leader) :
    (node.leaderAddr = "" →
      unaryIntercept node method = .reject .unavailable []) ∧
    (∀ a, node.leaderAddr ≠ "" →
      convertRaftToClusterAddr node.leaderAddr = .ok a →
      unaryIntercept node method =
        .reject .failedPrecondition
          [("x-leader-addr", a), ("x-redirect", "true")]) ∧
    (∀ e, node.leaderAddr ≠ "" →
      convertRaftToClusterAddr node.leaderAddr = .error e →
      unaryIntercept node method = .reject .internal []) := by
  refine ⟨?_, ?_, ?_⟩
  · intro hempty
    simp [unaryIntercept, hw, hnl, hempty]
  · intro a hne hconv
    simp [unaryIntercept, hw, hnl, hne, hconv]
  · intro e hne hconv
    simp [unaryIntercept, hw, hnl, hne, hconv]

/-- Claim C6, witness: a concrete Candidate with no known leader receives
`Unavailable` with no metadata. -/
theorem c6_nonleader_write_dispatch_witness :
    isWriteOperation "/vectorxlite.cluster.ClusterService/Insert" = true ∧
    (ClusterNodeView.state
        { state := .candidate, leaderAddr := "", servers := [] }) ≠
      RaftState.leader ∧
    unaryIntercept { state := .candidate, leaderAddr := "", servers := [] }
        "/vectorxlite.cluster.ClusterService/Insert" =
      .reject .unavailable [] :=
  ⟨by decide, by decide,
    (c6_nonleader_write_dispatch
        { state := .candidate, leaderAddr := "", servers := [] }
        "/vectorxlite.cluster.ClusterService/Insert"
        (by decide) (by decide)).1 rfl⟩

/-! ## Claim C10 — malformed leader address yields Internal -/

/-- Claim C10, confirmed: for every nonempty leader consensus address
whose port (the segment after the last colon) does not end in the
character 1 — which also covers an address with no colon at all, where the
derivation fails on the missing separator — `convertRaftToClusterAddr`
returns an error, and the redirect filter answers a write on a non-leader
node with `Internal` and no redirect metadata. -/
theorem c10_bad_port_internal (addr : String) (node : ClusterNodeView)
    (method : String)
    (hport : ∀ i, lastIndexOf ':' addr.data = some i →
      (addr.data.drop (i + 1)).reverse.head? ≠ some '1')
    (hne : addr ≠ "") (hleader : node.leaderAddr = addr)
    (hnl : node.state ≠ .leader) (hw : isWriteOperation method = true) :
    (∃ e, convertRaftToClusterAddr addr = .error e) ∧
      unaryIntercept node method = .reject .internal [] := by
  have hconv : ∃ e, convertRaftToClusterAddr addr = .error e := by
    cases hidx : lastIndexOf ':' addr.data with
    | none =>
      exact ⟨"invalid address format: " ++ addr,
        by simp only [convertRaftToClusterAddr, hidx]⟩
    | some i =>
      have hp := hport i hidx
      cases hrev : (addr.data.drop (i + 1)).reverse with
      | nil =>
        exact ⟨"raft address must end with 1: " ++ addr,
          by simp only [convertRaftToClusterAddr, hidx, hrev]⟩
      | cons lastc revInit =>
        have hc1 : ¬lastc = '1' := by
          intro hq
          exact hp (by rw [hrev, hq, List.head?_cons])
        exact ⟨"raft address must end with 1: " ++ addr,
          by simp only [convertRaftToClusterAddr, hidx, hrev, if_neg hc1]⟩
  obtain ⟨e, he⟩ := hconv
  refine ⟨⟨e, he⟩, ?_⟩
  have hne2 : node.leaderAddr ≠ "" := by rw [hleader]; exact hne
  simp [unaryIntercept, hw, hnl, hne2, hne, hleader, he]

/-- Claim C10, witness: the concrete consensus address 127.0.0.1:5003
(port not ending in 1) makes the conversion fail and the filter answer a
follower write with `Internal`. -/
theorem c10_bad_port_internal_witness :
    (∃ e, convertRaftToClusterAddr "127.0.0.1:5003" = .error e) ∧
      unaryIntercept
          { state := .follower, leaderAddr := "127.0.0.1:5003", servers := [] }
          "/vectorxlite.cluster.ClusterService/Insert" =
        .reject .internal [] :=
  c10_bad_port_internal "127.0.0.1:5003"
    { state := .follower, leaderAddr := "127.0.0.1:5003", servers := [] }
    "/vectorxlite.cluster.ClusterService/Insert"
    (by intro i hi; cases hi; decide)
    (by decide) rfl (by decide) (by decide)

/-! ## Claim C7 — frame codec round trip -/

/-- Claim C7, confirmed: for every chunk sequence with contiguous sequence
numbers from zero and exactly one final chunk, which is the last — and
whose marshalled chunks each fit the 4-byte unsigned length prefix —
decoding the framed stream produced by the snapshot writer yields exactly
the original chunk sequence: `readSnapshotChunks` composed with
`writeSnapshotToSink` is the identity on such sequences. -/
theorem c7_frame_codec_roundtrip (chunks : List SnapshotChunk)
    (_hcontig : chunks.map SnapshotChunk.sequence = List.range chunks.length)
    (hmid : ∀ c ∈ chunks.dropLast, c.isFinal = false)
    (hfin : chunks.getLast?.map SnapshotChunk.isFinal = some true)
    (hlen : ∀ c ∈ chunks, (encodeSnapshotChunk c).length < 2 ^ 32) :
    readSnapshotChunks (writeSnapshotToSink chunks) = .ok chunks := by
  have hne : chunks ≠ [] := by
    intro h
    rw [h] at hfin
    simp at hfin
  have hsplit : chunks.dropLast ++ [chunks.getLast hne] = chunks :=
    List.dropLast_append_getLast hne
  have hlastmem : chunks.getLast hne ∈ chunks := List.getLast_mem hne
  have hlastfin : (chunks.getLast hne).isFinal = true := by
    rw [List.getLast?_eq_getLast chunks hne] at hfin
    simpa using hfin
  have hmem : ∀ c ∈ chunks.dropLast, c ∈ chunks := by
    intro c hc
    rw [← hsplit]
    exact List.mem_append_left _ hc
  have hw : writeSnapshotToSink chunks =
      chunks.dropLast.flatMap writeChunk ++ writeChunk (chunks.getLast hne) := by
    calc writeSnapshotToSink chunks
        = writeSnapshotToSink (chunks.dropLast ++ [chunks.getLast hne]) := by
          rw [hsplit]
      _ = chunks.dropLast.flatMap writeChunk ++ writeChunk (chunks.getLast hne) := by
          simp [writeSnapshotToSink, List.flatMap_append]
  have hfinal : readSnapshotChunks (writeChunk (chunks.getLast hne)) =
      .ok [chunks.getLast hne] := by
    have := readSnapshotChunks_final (chunks.getLast hne) [] (hlen _ hlastmem)
      hlastfin
    rwa [List.append_nil] at this
  rw [hw, readSnapshotChunks_flatMap _ _ hmid (fun c hc => hlen c (hmem c hc)),
    hfinal]
  simp [Except.map, hsplit]

/-- Claim C7, witness: a concrete two-chunk sequence (metadata chunk then
a final file chunk) round-trips through the frame codec. -/
theorem c7_frame_codec_roundtrip_witness :
    readSnapshotChunks (writeSnapshotToSink [chunkMeta, chunkData]) =
      .ok [chunkMeta, chunkData] :=
  c7_frame_codec_roundtrip _ (by decide) (by decide) (by decide) (by decide)

/-! ## Claim C8 — malformed snapshot stream fails restore -/

/-- Claim C8, confirmed: a framed stream that is truncated inside a frame
(here: the written stream of any nonempty chunk sequence with its very
last byte removed) or that contains a frame whose payload fails to
deserialize makes `Restore` fail; the `RestoreOutcome.failed` result means
`readSnapshotChunks` returned an error before the backend
`ImportSnapshot` call, so the node's backend state is untouched. -/
theorem c8_restore_malformed (chunks : List SnapshotChunk)
    (hne : chunks ≠ [])
    (hmid : ∀ c ∈ chunks.dropLast, c.isFinal = false)
    (hlen : ∀ c ∈ chunks, (encodeSnapshotChunk c).length < 2 ^ 32) :
    fsmRestore ((writeSnapshotToSink chunks).dropLast) =
      .failed "failed to read chunk: failed to read chunk data" ∧
    (∀ p : List Nat, decodeSnapshotChunk p = none → p.length < 2 ^ 32 →
      fsmRestore (writeSnapshotToSink chunks.dropLast ++ (be32 p.length ++ p)) =
        .failed "failed to read chunk: failed to unmarshal chunk") := by
  have hsplit : chunks.dropLast ++ [chunks.getLast hne] = chunks :=
    List.dropLast_append_getLast hne
  have hlastmem : chunks.getLast hne ∈ chunks := List.getLast_mem hne
  have hmem : ∀ c ∈ chunks.dropLast, c ∈ chunks := by
    intro c hc
    rw [← hsplit]
    exact List.mem_append_left _ hc
  have hlen2 : ∀ c ∈ chunks.dropLast, (encodeSnapshotChunk c).length < 2 ^ 32 :=
    fun c hc => hlen c (hmem c hc)
  constructor
  · have hwne : writeChunk (chunks.getLast hne) ≠ [] := by
      simp [writeChunk, be32]
    have hw : writeSnapshotToSink chunks =
        chunks.dropLast.flatMap writeChunk ++ writeChunk (chunks.getLast hne) := by
      calc writeSnapshotToSink chunks
          = writeSnapshotToSink (chunks.dropLast ++ [chunks.getLast hne]) := by
            rw [hsplit]
        _ = chunks.dropLast.flatMap writeChunk ++
              writeChunk (chunks.getLast hne) := by
            simp [writeSnapshotToSink, List.flatMap_append]
    rw [hw, List.dropLast_append_of_ne_nil _ hwne]
    rw [fsmRestore, readSnapshotChunks_flatMap _ _ hmid hlen2,
      readSnapshotChunks_truncated _ (hlen _ hlastmem)]
    rfl
  · intro p hdec hp
    rw [fsmRestore, writeSnapshotToSink,
      readSnapshotChunks_flatMap _ _ hmid hlen2,
      readSnapshotChunks_badFrame p hdec hp]
    rfl

/-- Claim C8, witness: the concrete two-chunk stream of the round-trip
witness, with its last byte truncated, fails restore with the short-read
error (and the backend import is never reached). -/
theorem c8_restore_malformed_witness :
    fsmRestore ((writeSnapshotToSink [chunkMeta2, chunkData2]).dropLast) =
      .failed "failed to read chunk: failed to read chunk data" :=
  (c8_restore_malformed _ (by decide) (by decide) (by decide)).1

/-! ## Behavior of the client redirect interceptor -/

/-- Hop-budget exhaustion: at or beyond the cap the interceptor returns
the terminal max-redirects error without invoking the transport. -/
theorem invokeWithRedirect_stop (inv : Nat → String → CallResult)
    (maxR : Nat) (addr : String) (count : Nat) (h : maxR ≤ count) :
    invokeWithRedirect inv maxR addr count = (.maxRedirectsExceeded maxR, 0) := by
  rw [invokeWithRedirect]
  simp [h]

/-- A non-redirect result (success, or any error without the full redirect
signal) is propagated unchanged after exactly one invocation. -/
theorem invokeWithRedirect_result (inv : Nat → String → CallResult)
    (maxR : Nat) (addr : String) (count : Nat) (h1 : ¬maxR ≤ count)
    (h2 : shouldRedirect (inv count addr) = false) :
    invokeWithRedirect inv maxR addr count = (.result (inv count addr), 1) := by
  rw [invokeWithRedirect]
  simp [h1, h2]

/-- A redirect result makes the interceptor retry the call against the
first advertised leader address with an incremented hop count. -/
theorem invokeWithRedirect_follow (inv : Nat → String → CallResult)
    (maxR : Nat) (addr : String) (count : Nat) (h1 : ¬maxR ≤ count)
    (h2 : shouldRedirect (inv count addr) = true) :
    invokeWithRedirect inv maxR addr count =
      ((invokeWithRedirect inv maxR (inv count addr).leaderAddrs.headI
          (count + 1)).1,
       (invokeWithRedirect inv maxR (inv count addr).leaderAddrs.headI
          (count + 1)).2 + 1) := by
  rw [invokeWithRedirect]
  simp [h1, h2]

/-- The number of transport invocations per user-visible call is bounded
by the remaining hop budget. -/
theorem invokeWithRedirect_calls_le (inv : Nat → String → CallResult)
    (maxR : Nat) (addr : String) (count : Nat) :
    (invokeWithRedirect inv maxR addr count).2 ≤ maxR - count := by
  suffices h : ∀ k addr count, maxR - count ≤ k →
      (invokeWithRedirect inv maxR addr count).2 ≤ maxR - count by
    exact h (maxR - count) addr count le_rfl
  intro k
  induction k with
  | zero =>
    intro addr count hk
    have hstop : maxR ≤ count := by omega
    rw [invokeWithRedirect_stop inv maxR addr count hstop]
    simp
  | succ k ih =>
    intro addr count hk
    by_cases hstop : maxR ≤ count
    · rw [invokeWithRedirect_stop inv maxR addr count hstop]
      simp
    · cases h2 : shouldRedirect (inv count addr) with
      | false =>
        rw [invokeWithRedirect_result inv maxR addr count hstop h2]
        simp only
        omega
      | true =>
        rw [invokeWithRedirect_follow inv maxR addr count hstop h2]
        have hrec := ih (inv count addr).leaderAddrs.headI (count + 1) (by omega)
        simp only
        omega

/-! ## Claim C9 — client redirect interceptor -/

/-- Claim C9, counterexample. The claim states that redirects are followed
only when the metadata contains a non-empty x-leader-addr. On the code,
only the presence of the x-leader-addr key is checked: a
`FailedPrecondition` response whose x-leader-addr value is the empty
string is still followed (here to the empty address, where the next call
succeeds after two invocations in total), instead of being propagated
unchanged as the claim requires. -/
theorem c9_empty_leader_addr_counterexample :
    invokeWithRedirect
        (fun n _ => if n = 0 then
          { errCode := some .failedPrecondition, leaderAddrs := [""],
            redirects := ["true"] }
        else { errCode := none, leaderAddrs := [], redirects := [] })
        3 "seed" 0 =
      (.result { errCode := none, leaderAddrs := [], redirects := [] }, 2) ∧
    ((InvokeOutcome.result
        { errCode := none, leaderAddrs := [], redirects := [] }, 2) :
        InvokeOutcome × Nat) ≠
      (.result { errCode := some .failedPrecondition, leaderAddrs := [""],
                 redirects := ["true"] }, 1) := by
  refine ⟨?_, by decide⟩
  rw [invokeWithRedirect_follow _ _ _ _ (by omega) (by decide)]
  rw [invokeWithRedirect_result _ _ _ _ (by omega) (by decide)]
  decide

/-- Claim C9, amended: the client interceptor follows a redirect exactly
when the call failed with `FailedPrecondition`, the first x-redirect
metadata value is the string true, and the x-leader-addr key is present
(with any value, the empty string included); every other outcome is
propagated unchanged after one invocation; the number of invocations per
user-visible call is bounded by the remaining hop budget (at most the
configured maximum, default 3, with `MaxRedirectsExceeded` surfaced at
exhaustion); hence `invokeWithRedirect` terminates on every input. -/
theorem c9_redirect_client_behavior (inv : Nat → String → CallResult)
    (maxR : Nat) (addr : String) (count : Nat) :
    (invokeWithRedirect inv maxR addr count).2 ≤ maxR - count ∧
    (maxR ≤ count →
      invokeWithRedirect inv maxR addr count = (.maxRedirectsExceeded maxR, 0)) ∧
    (count < maxR → shouldRedirect (inv count addr) = false →
      invokeWithRedirect inv maxR addr count = (.result (inv count addr), 1)) ∧
    (count < maxR → shouldRedirect (inv count addr) = true →
      invokeWithRedirect inv maxR addr count =
        ((invokeWithRedirect inv maxR (inv count addr).leaderAddrs.headI
            (count + 1)).1,
         (invokeWithRedirect inv maxR (inv count addr).leaderAddrs.headI
            (count + 1)).2 + 1)) ∧
    newRedirectInterceptorMax 0 = 3 :=
  ⟨invokeWithRedirect_calls_le inv maxR addr count,
   fun h => invokeWithRedirect_stop inv maxR addr count h,
   fun h1 h2 => invokeWithRedirect_result inv maxR addr count (by omega) h2,
   fun h1 h2 => invokeWithRedirect_follow inv maxR addr count (by omega) h2,
   rfl⟩

/-- Claim C9, witness: a successful first call is propagated unchanged
after one invocation, under the default hop budget. -/
theorem c9_redirect_client_behavior_witness :
    shouldRedirect { errCode := none, leaderAddrs := [], redirects := [] } =
      false ∧
    invokeWithRedirect
        (fun _ _ => { errCode := none, leaderAddrs := [], redirects := [] })
        3 "node1" 0 =
      (.result { errCode := none, leaderAddrs := [], redirects := [] }, 1) :=
  ⟨by decide,
   (c9_redirect_client_behavior
      (fun _ _ => { errCode := none, leaderAddrs := [], redirects := [] })
      3 "node1" 0).2.2.1 (by omega) (by decide)⟩

end VectorXLite
